import Mathlib

/-!
Verification of the notebook `docs/docs/how_to/vectorstore_retriever.ipynb`.

The repository fragment is a tutorial notebook: a straight-line Python script
that loads a text file, splits it, builds an embedding model, indexes the
chunks in a FAISS vector store, wraps the store as a retriever with
`as_retriever`, and queries the retriever with `invoke`, under four
configurations (default similarity, `search_type="mmr"`,
`search_type="similarity_score_threshold"` with `score_threshold=0.5`, and
`search_kwargs={"k": 1}`).

The library the notebook invokes (`langchain_core` / `langchain_community`)
belongs to the repository but is not part of the fragment under review, so
its behaviour is modelled from the specification and from the notebook's own
prose, as flagged in the doc comments below.  The notebook script itself is
embedded statement by statement.
-/

namespace VectorstoreRetrieverNotebook

/-- A document: the unit of text stored and returned by the library.  The
notebook only ever observes documents as opaque items, so the model keeps
just the page content. -/
structure Document where
  page_content : String
deriving DecidableEq, Repr

/-- Modelled from the spec: embedding generation is the external library's
responsibility ("embedding generation ... is the external library's
responsibility").  The model abstracts an embedding model by what the
retrieval pipeline observes of it: a query-to-document relevance score and a
document-to-document similarity, both rational valued. -/
structure Embeddings where
  relevance : String → Document → ℚ
  docSim : Document → Document → ℚ

/-- Modelled from the spec: a vector store is "an index mapping embedding
vectors to source documents, queried by nearest-neighbor similarity".  The
model keeps the indexed documents together with the scores induced by the
embedding model used to build the index. -/
structure VectorStore where
  texts : List Document
  relevance : String → Document → ℚ
  docSim : Document → Document → ℚ

namespace FAISS

/-- Modelled from the spec: `FAISS.from_documents(texts, embeddings)` indexes
the split texts into the vector store using the embedding model. -/
def from_documents (texts : List Document) (embeddings : Embeddings) : VectorStore :=
  { texts := texts
    relevance := embeddings.relevance
    docSim := embeddings.docSim }

end FAISS

/-- The `search_kwargs` dictionary passed to `as_retriever`: the notebook
uses exactly the keys `k` (top-k) and `score_threshold`. -/
structure SearchKwargs where
  k : Option ℕ
  score_threshold : Option ℚ
deriving DecidableEq, Repr

/-- The `search_type` argument of `as_retriever`: the notebook uses the
default similarity search, `"mmr"`, and `"similarity_score_threshold"`. -/
inductive SearchType
  | similarity
  | mmr
  | similarity_score_threshold
deriving DecidableEq, Repr

/-- The search method of the underlying vector store that a retriever
dispatches to (the notebook: "This effectively specifies what method on the
underlying vectorstore is used (e.g., `similarity_search`,
`max_marginal_relevance_search`, etc.)"). -/
inductive SearchMethod
  | similarity_search
  | max_marginal_relevance_search
  | similarity_search_with_relevance_scores
deriving DecidableEq, Repr

/-- Which vector-store method each search type selects. -/
def SearchType.method : SearchType → SearchMethod
  | .similarity => .similarity_search
  | .mmr => .max_marginal_relevance_search
  | .similarity_score_threshold => .similarity_search_with_relevance_scores

/-- Modelled from the spec: the library's default top-k when the caller does
not pass `k` in `search_kwargs`.  No claim depends on its value. -/
def SearchKwargs.getK (kw : SearchKwargs) : ℕ := kw.k.getD 4

/-- The candidate documents of a store ranked by descending relevance to the
query (nearest-neighbor similarity order). -/
def VectorStore.ranked (vs : VectorStore) (query : String) : List Document :=
  vs.texts.insertionSort (fun a b => vs.relevance query b ≤ vs.relevance query a)

/-- Modelled from the spec: `similarity_search` returns the top `k` documents
by nearest-neighbor similarity to the query. -/
def VectorStore.similarity_search (vs : VectorStore) (query : String)
    (kw : SearchKwargs) : List Document :=
  (vs.ranked query).take kw.getK

/-- Modelled from the spec: `similarity_search_with_relevance_scores` returns
the top `k` documents paired with their relevance scores and, when the caller
passes `score_threshold`, keeps "only ... documents with a score above that
threshold" (notebook prose). -/
def VectorStore.similarity_search_with_relevance_scores (vs : VectorStore)
    (query : String) (kw : SearchKwargs) : List (Document × ℚ) :=
  match kw.score_threshold with
  | none => ((vs.ranked query).map (fun d => (d, vs.relevance query d))).take kw.getK
  | some t =>
    (((vs.ranked query).map (fun d => (d, vs.relevance query d))).take kw.getK).filter
      (fun p => decide (t < p.2))

/-- The greedy MMR objective: relevance of a candidate traded off against its
maximal similarity to the documents already selected. -/
def mmrObjective (rel : Document → ℚ) (sim : Document → Document → ℚ)
    (lam : ℚ) (selected : List Document) (c : Document) : ℚ :=
  match selected with
  | [] => rel c
  | s :: ss => lam * rel c - (1 - lam) * (ss.foldl (fun m a => max m (sim c a)) (sim c s))

/-- The candidate of `x :: xs` maximising `f` (first maximiser wins). -/
def argmaxBy (f : Document → ℚ) (x : Document) (xs : List Document) : Document :=
  xs.foldl (fun b a => if f b < f a then a else b) x

/-- Greedy MMR selection: repeatedly pick the candidate with the best MMR
objective, up to `k` picks. -/
def mmrGo (rel : Document → ℚ) (sim : Document → Document → ℚ) (lam : ℚ) :
    ℕ → List Document → List Document → List Document
  | 0, _, selected => selected.reverse
  | _ + 1, [], selected => selected.reverse
  | n + 1, c :: cs, selected =>
    let best := argmaxBy (mmrObjective rel sim lam selected) c cs
    mmrGo rel sim lam n ((c :: cs).erase best) (best :: selected)

/-- Modelled from the spec: MMR is "a re-ranking strategy balancing result
relevance against diversity among returned items".  The model greedily
re-ranks the relevance-ranked candidates with an equal-weight trade-off,
returning at most `k` documents. -/
def VectorStore.max_marginal_relevance_search (vs : VectorStore) (query : String)
    (kw : SearchKwargs) : List Document :=
  mmrGo (vs.relevance query) vs.docSim (mkRat 1 2) kw.getK (vs.ranked query) []

/-- The keyword arguments of `as_retriever`; a missing `search_type` or
`search_kwargs` is `none`, matching an omitted Python keyword argument. -/
structure AsRetrieverKwargs where
  search_type : Option SearchType
  search_kwargs : Option SearchKwargs

/-- Modelled from the spec: the retriever is "a wrapper exposing a uniform
query → ranked documents call over an underlying search mechanism".  It holds
the wrapped store, the selected search type and the search parameters. -/
structure VectorStoreRetriever where
  vectorstore : VectorStore
  search_type : SearchType
  search_kwargs : SearchKwargs

/-- The default `search_kwargs`: the empty dictionary. -/
def SearchKwargs.empty : SearchKwargs := ⟨none, none⟩

/-- Modelled from the spec: `vectorstore.as_retriever(...)` wraps the store
as a `VectorStoreRetriever`; an omitted `search_type` defaults to similarity
search ("By default, the vector store retriever uses similarity search") and
an omitted `search_kwargs` defaults to the empty dictionary. -/
def VectorStore.as_retriever (vs : VectorStore) (kwargs : AsRetrieverKwargs) :
    VectorStoreRetriever :=
  { vectorstore := vs
    search_type := kwargs.search_type.getD .similarity
    search_kwargs := kwargs.search_kwargs.getD SearchKwargs.empty }

/-- The single call a retriever issues against its vector store: the selected
method, the query, and the search parameters passed through. -/
structure SearchCall where
  method : SearchMethod
  query : String
  kwargs : SearchKwargs
deriving DecidableEq, Repr

/-- The search call `invoke(query)` issues: the method selected by the
retriever's search type, with the retriever's `search_kwargs` forwarded. -/
def VectorStoreRetriever.searchCall (r : VectorStoreRetriever) (query : String) :
    SearchCall :=
  ⟨r.search_type.method, query, r.search_kwargs⟩

/-- Execution of a search call by the vector store: dispatch on the method
name, exactly as the notebook describes ("This effectively specifies what
method on the underlying vectorstore is used"). -/
def VectorStore.execSearch (vs : VectorStore) (c : SearchCall) : List Document :=
  match c.method with
  | .similarity_search => vs.similarity_search c.query c.kwargs
  | .max_marginal_relevance_search => vs.max_marginal_relevance_search c.query c.kwargs
  | .similarity_search_with_relevance_scores =>
    (vs.similarity_search_with_relevance_scores c.query c.kwargs).map Prod.fst

/-- Modelled from the spec: `retriever.invoke(query)` is the uniform
"query → ranked documents" call: it issues the retriever's search call
against the wrapped vector store. -/
def VectorStoreRetriever.invoke (r : VectorStoreRetriever) (query : String) :
    List Document :=
  r.vectorstore.execSearch (r.searchCall query)

/-! ### The notebook script, embedded statement by statement -/

/-- One external library call of the notebook, with its literal arguments.
Variable arguments (receivers and data flowing between calls) are listed
separately in the statement. -/
inductive LibCall
  | textLoader (path : String)
  | loaderLoad
  | charTextSplitter (chunk_size chunk_overlap : ℕ)
  | splitDocuments
  | openAIEmbeddings
  | faissFromDocuments
  | asRetriever (kwargs : AsRetrieverKwargs)
  | retrieverInvoke (query : String)

/-- A straight-line statement: an assignment whose right-hand side is one
external library call applied to previously bound variables. -/
inductive SimpleStmt
  | assign (lhs : String) (call : LibCall) (args : List String)

/-- A Python statement as relevant to the structure claims: either a
straight-line assignment or one of the control constructs (branch, loop,
exception handler) the notebook could have used but does not. -/
inductive Stmt
  | simple (s : SimpleStmt)
  | ifElse (cond : String) (thn els : List SimpleStmt)
  | whileLoop (cond : String) (body : List SimpleStmt)
  | forLoop (v : String) (iter : String) (body : List SimpleStmt)
  | tryExcept (body handler : List SimpleStmt)

/-- Whether a statement is a straight-line assignment. -/
def Stmt.isSimple : Stmt → Bool
  | .simple _ => true
  | _ => false

/-- The pipeline stage a library call belongs to. -/
inductive Stage
  | loadStage
  | splitStage
  | embedStage
  | indexStage
  | wrapRetrieverStage
  | queryStage
deriving DecidableEq, Repr

/-- Stage classification of the notebook's statements. -/
def SimpleStmt.stage : SimpleStmt → Stage
  | .assign _ c _ =>
    match c with
    | .textLoader _ => .loadStage
    | .loaderLoad => .loadStage
    | .charTextSplitter _ _ => .splitStage
    | .splitDocuments => .splitStage
    | .openAIEmbeddings => .embedStage
    | .faissFromDocuments => .indexStage
    | .asRetriever _ => .wrapRetrieverStage
    | .retrieverInvoke _ => .queryStage

/-- The stages of a list in order of first occurrence. -/
def firstOccurAux : List Stage → List Stage → List Stage
  | seen, [] => seen.reverse
  | seen, s :: rest =>
    if s ∈ seen then firstOccurAux seen rest else firstOccurAux (s :: seen) rest

/-- Order of first occurrence of the stages of a statement list. -/
def stageOrder (script : List SimpleStmt) : List Stage :=
  firstOccurAux [] (script.map SimpleStmt.stage)

/-- The query string used by every `invoke` call of the notebook. -/
def theQuery : String := "what did the president say about ketanji brown jackson?"

/-- The notebook's code cells, statement by statement, in execution order
(cells 174e3c69, 52df5f55, 32334fda, b286ac04, 07f937f7, dbb38a03, 56f6c9ae,
d712c91d, a79b573b). -/
def notebookScript : List SimpleStmt :=
  [ .assign "loader" (.textLoader "state_of_the_union.txt") []
  , .assign "documents" .loaderLoad ["loader"]
  , .assign "text_splitter" (.charTextSplitter 1000 0) []
  , .assign "texts" .splitDocuments ["text_splitter", "documents"]
  , .assign "embeddings" .openAIEmbeddings []
  , .assign "vectorstore" .faissFromDocuments ["texts", "embeddings"]
  , .assign "retriever" (.asRetriever ⟨none, none⟩) ["vectorstore"]
  , .assign "docs" (.retrieverInvoke theQuery) ["retriever"]
  , .assign "retriever" (.asRetriever ⟨some .mmr, none⟩) ["vectorstore"]
  , .assign "docs" (.retrieverInvoke theQuery) ["retriever"]
  , .assign "retriever"
      (.asRetriever ⟨some .similarity_score_threshold, some ⟨none, some (mkRat 1 2)⟩⟩)
      ["vectorstore"]
  , .assign "docs" (.retrieverInvoke theQuery) ["retriever"]
  , .assign "retriever" (.asRetriever ⟨none, some ⟨some 1, none⟩⟩) ["vectorstore"]
  , .assign "docs" (.retrieverInvoke theQuery) ["retriever"]
  ]

/-- The notebook's statements as `Stmt`s (all of them straight-line). -/
def notebookStmts : List Stmt := notebookScript.map Stmt.simple

/-! ### Semantics of the straight-line script -/

/-- A Python value flowing through the notebook script. -/
inductive Value
  | loaderV (path : String)
  | docsV (ds : List Document)
  | splitterV (chunk_size chunk_overlap : ℕ)
  | embeddingsV (e : Embeddings)
  | storeV (vs : VectorStore)
  | retrieverV (r : VectorStoreRetriever)

/-- An exception: either a type error from a misapplied call, or an error
raised inside an external library call. -/
inductive PyErr
  | typeError
  | external (code : ℕ)
deriving DecidableEq, Repr

/-- The variable environment: latest binding first. -/
def Env := List (String × Value)

/-- Look up the latest binding of a variable. -/
def lookupVar (env : Env) (x : String) : Option Value :=
  match env with
  | [] => none
  | (y, v) :: rest => if y = x then some v else lookupVar rest x

/-- The external world the script runs against: the file system contents seen
by `TextLoader`, the splitter's chunking behaviour, the embedding model, and
an injection point `raises` mapping each statement index to the exception (if
any) its library call raises.  Loading, splitting and embedding are the
external library's responsibility, so they are abstract here. -/
structure World where
  fileDocs : String → List Document
  chunk : ℕ → ℕ → List Document → List Document
  embeddings : Embeddings
  raises : ℕ → Option PyErr

/-- Evaluate one library call against the environment. -/
def evalCall (w : World) (env : Env) : LibCall → List String → Except PyErr Value
  | .textLoader path, [] => .ok (.loaderV path)
  | .loaderLoad, [l] =>
    match lookupVar env l with
    | some (.loaderV path) => .ok (.docsV (w.fileDocs path))
    | _ => .error .typeError
  | .charTextSplitter cs co, [] => .ok (.splitterV cs co)
  | .splitDocuments, [sp, ds] =>
    match lookupVar env sp, lookupVar env ds with
    | some (.splitterV cs co), some (.docsV l) => .ok (.docsV (w.chunk cs co l))
    | _, _ => .error .typeError
  | .openAIEmbeddings, [] => .ok (.embeddingsV w.embeddings)
  | .faissFromDocuments, [ts, em] =>
    match lookupVar env ts, lookupVar env em with
    | some (.docsV l), some (.embeddingsV e) => .ok (.storeV (FAISS.from_documents l e))
    | _, _ => .error .typeError
  | .asRetriever kwargs, [v] =>
    match lookupVar env v with
    | some (.storeV vs) => .ok (.retrieverV (vs.as_retriever kwargs))
    | _ => .error .typeError
  | .retrieverInvoke q, [rv] =>
    match lookupVar env rv with
    | some (.retrieverV r) => .ok (.docsV (r.invoke q))
    | _ => .error .typeError
  | _, _ => .error .typeError

/-- Execute one straight-line statement at index `idx`: if the world injects
an exception at this call it is raised, otherwise the call's result is bound. -/
def execSimple (w : World) (idx : ℕ) (env : Env) : SimpleStmt → Except PyErr Env
  | .assign lhs call args =>
    match w.raises idx with
    | some e => .error e
    | none =>
      match evalCall w env call args with
      | .error e => .error e
      | .ok v => .ok ((lhs, v) :: env)

/-- Run a straight-line script from index `idx`, stopping at the first
exception. -/
def runStmts (w : World) : List SimpleStmt → ℕ → Env → Except PyErr Env
  | [], _, env => .ok env
  | s :: rest, idx, env =>
    match execSimple w idx env s with
    | .error e => .error e
    | .ok env2 => runStmts w rest (idx + 1) env2

/-! ### The plain composition of the external calls, and sample data -/

/-- Modelled from the spec: the vector store the pipeline builds, "load →
split → embed → index" — the split texts of the loaded file indexed with the
embedding model. -/
def pipelineStore (w : World) : VectorStore :=
  FAISS.from_documents (w.chunk 1000 0 (w.fileDocs "state_of_the_union.txt")) w.embeddings

/-- Modelled from the spec: the final variable environment as the plain
composition of the external library calls, "load → split → embed → index →
wrap-as-retriever → query", with the three re-wrap/re-query pairs of the
later cells; no computation is inserted between the calls. -/
def composedFinalEnv (w : World) : Env :=
  let documents := w.fileDocs "state_of_the_union.txt"
  let texts := w.chunk 1000 0 documents
  let vectorstore := FAISS.from_documents texts w.embeddings
  let r1 := vectorstore.as_retriever ⟨none, none⟩
  let r2 := vectorstore.as_retriever ⟨some .mmr, none⟩
  let r3 := vectorstore.as_retriever
    ⟨some .similarity_score_threshold, some ⟨none, some (mkRat 1 2)⟩⟩
  let r4 := vectorstore.as_retriever ⟨none, some ⟨some 1, none⟩⟩
  [ ("docs", .docsV (r4.invoke theQuery))
  , ("retriever", .retrieverV r4)
  , ("docs", .docsV (r3.invoke theQuery))
  , ("retriever", .retrieverV r3)
  , ("docs", .docsV (r2.invoke theQuery))
  , ("retriever", .retrieverV r2)
  , ("docs", .docsV (r1.invoke theQuery))
  , ("retriever", .retrieverV r1)
  , ("vectorstore", .storeV vectorstore)
  , ("embeddings", .embeddingsV w.embeddings)
  , ("texts", .docsV texts)
  , ("text_splitter", .splitterV 1000 0)
  , ("documents", .docsV documents)
  , ("loader", .loaderV "state_of_the_union.txt")
  ]

/-- The vector store held by the variable `retriever` after the first `n`
statements of the notebook, if the run succeeds. -/
def retrieverStoreAt (w : World) (n : ℕ) : Option VectorStore :=
  match runStmts w (notebookScript.take n) 0 [] with
  | .ok env =>
    match lookupVar env "retriever" with
    | some (.retrieverV r) => some r.vectorstore
    | _ => none
  | .error _ => none

/-- The vector store held by the variable `vectorstore` after the first `n`
statements of the notebook, if the run succeeds. -/
def storeVarAt (w : World) (n : ℕ) : Option VectorStore :=
  match runStmts w (notebookScript.take n) 0 [] with
  | .ok env =>
    match lookupVar env "vectorstore" with
    | some (.storeV vs) => some vs
    | _ => none
  | .error _ => none

/-- A concrete document used by the evaluation witnesses. -/
def docA : Document := ⟨"doc a"⟩

/-- A second concrete document used by the evaluation witnesses. -/
def docB : Document := ⟨"doc b"⟩

/-- A concrete embedding model for the evaluation witnesses: `docA` scores
9/10 against any query, every other document 2/5. -/
def sampleEmb : Embeddings :=
  { relevance := fun _ d => if d = docA then mkRat 9 10 else mkRat 2 5
    docSim := fun _ _ => 0 }

/-- A concrete two-document vector store for the evaluation witnesses. -/
def sampleStore : VectorStore := FAISS.from_documents [docA, docB] sampleEmb

/-- A concrete world for the evaluation witnesses in which no library call
raises. -/
def sampleWorld : World :=
  { fileDocs := fun _ => [docA, docB]
    chunk := fun _ _ l => l
    embeddings := sampleEmb
    raises := fun _ => none }

/-- A concrete world whose very first library call raises exception code 7. -/
def failWorld : World :=
  { fileDocs := fun _ => [docA, docB]
    chunk := fun _ _ l => l
    embeddings := sampleEmb
    raises := fun _ => some (.external 7) }

/-- The invoke statements of a script: left-hand side, receiver arguments and
query string of each `retriever.invoke(...)` call. -/
def invokeCalls (script : List SimpleStmt) : List (String × List String × String) :=
  script.filterMap fun s =>
    match s with
    | .assign lhs (.retrieverInvoke q) args => some (lhs, args, q)
    | _ => none

/-! ### Helper lemmas -/

/-- Descending-relevance order: each document is at least as relevant as all
later ones. -/
def rankedDesc (f : Document → ℚ) (l : List Document) : Prop :=
  l.Pairwise (fun a b => f b ≤ f a)

lemma ranked_sorted (vs : VectorStore) (q : String) :
    rankedDesc (vs.relevance q) (vs.ranked q) := by
  have ht : IsTotal Document (fun a b => vs.relevance q b ≤ vs.relevance q a) :=
    ⟨fun a b => le_total _ _⟩
  have htr : IsTrans Document (fun a b => vs.relevance q b ≤ vs.relevance q a) :=
    ⟨fun a b c hab hbc => le_trans hbc hab⟩
  exact List.sorted_insertionSort _ vs.texts

lemma length_ranked (vs : VectorStore) (q : String) :
    (vs.ranked q).length = vs.texts.length :=
  List.length_insertionSort _ _

lemma mmrGo_length_le (rel : Document → ℚ) (sim : Document → Document → ℚ)
    (lam : ℚ) : ∀ (n : ℕ) (cands selected : List Document),
    (mmrGo rel sim lam n cands selected).length ≤ n + selected.length := by
  intro n
  induction n with
  | zero => intro cands selected; simp [mmrGo]
  | succ m ih =>
    intro cands selected
    cases cands with
    | nil => simp [mmrGo]
    | cons c cs =>
      have h := ih ((c :: cs).erase (argmaxBy (mmrObjective rel sim lam selected) c cs))
        (argmaxBy (mmrObjective rel sim lam selected) c cs :: selected)
      simp only [mmrGo]
      simp only [List.length_cons] at h
      omega

lemma invoke_length_le (r : VectorStoreRetriever) (q : String) :
    (r.invoke q).length ≤ r.search_kwargs.getK := by
  rcases r with ⟨vs, st, ko, sto⟩
  cases st with
  | similarity =>
    show ((vs.ranked q).take (SearchKwargs.getK ⟨ko, sto⟩)).length ≤ _
    rw [List.length_take]
    exact min_le_left _ _
  | mmr =>
    simpa using mmrGo_length_le _ _ _ (SearchKwargs.getK ⟨ko, sto⟩) (vs.ranked q) []
  | similarity_score_threshold =>
    show ((vs.similarity_search_with_relevance_scores q ⟨ko, sto⟩).map Prod.fst).length ≤ _
    rw [List.length_map]
    cases sto with
    | none =>
      show (((vs.ranked q).map (fun d => (d, vs.relevance q d))).take
        (SearchKwargs.getK ⟨ko, none⟩)).length ≤ _
      rw [List.length_take]
      exact min_le_left _ _
    | some t =>
      refine le_trans (List.length_filter_le _ _) ?_
      rw [List.length_take]
      exact min_le_left _ _

lemma invoke_k1_length (vs : VectorStore) (q : String) (h : vs.texts ≠ []) :
    ((vs.as_retriever ⟨none, some ⟨some 1, none⟩⟩).invoke q).length = 1 := by
  have hlen : (vs.ranked q).length = vs.texts.length := length_ranked vs q
  have hpos : 0 < vs.texts.length := List.length_pos.mpr h
  simp only [VectorStoreRetriever.invoke, VectorStoreRetriever.searchCall,
    VectorStore.as_retriever, Option.getD, VectorStore.execSearch, SearchType.method,
    VectorStore.similarity_search, SearchKwargs.getK, List.length_take, hlen]
  omega

lemma sswrs_sublist (vs : VectorStore) (q : String) (kw : SearchKwargs) :
    List.Sublist (vs.similarity_search_with_relevance_scores q kw)
      ((vs.ranked q).map (fun d => (d, vs.relevance q d))) := by
  unfold VectorStore.similarity_search_with_relevance_scores
  cases kw.score_threshold with
  | none => exact List.take_sublist _ _
  | some t => exact (List.filter_sublist _).trans (List.take_sublist _ _)

lemma mem_threshold_invoke (vs : VectorStore) (q : String) (ko : Option ℕ) (t : ℚ)
    (d : Document)
    (h : d ∈ (vs.as_retriever
        ⟨some .similarity_score_threshold, some ⟨ko, some t⟩⟩).invoke q) :
    t < vs.relevance q d := by
  simp only [VectorStoreRetriever.invoke, VectorStoreRetriever.searchCall,
    VectorStore.as_retriever, Option.getD, SearchType.method, VectorStore.execSearch,
    VectorStore.similarity_search_with_relevance_scores] at h
  rcases List.mem_map.mp h with ⟨p, hp, hfst⟩
  have hfilter := List.mem_filter.mp hp
  have htake : p ∈ ((vs.ranked q).map (fun d => (d, vs.relevance q d))).take
      (SearchKwargs.getK ⟨ko, some t⟩) := hfilter.1
  have hmem : p ∈ (vs.ranked q).map (fun d => (d, vs.relevance q d)) :=
    (List.take_sublist _ _).mem htake
  rcases List.mem_map.mp hmem with ⟨d', _, hpair⟩
  have hlt : t < p.2 := of_decide_eq_true hfilter.2
  rw [← hpair] at hfst hlt
  simpa [← hfst] using hlt

lemma runStmts_error_of_prefix (w : World) (s : SimpleStmt) (post : List SimpleStmt)
    (e : PyErr) (env : Env) :
    ∀ (pre : List SimpleStmt) (idx : ℕ) (env0 : Env),
    runStmts w pre idx env0 = .ok env →
    execSimple w (idx + pre.length) env s = .error e →
    runStmts w (pre ++ s :: post) idx env0 = .error e := by
  intro pre
  induction pre with
  | nil =>
    intro idx env0 h1 h2
    simp only [runStmts] at h1
    cases h1
    simp only [List.nil_append, runStmts]
    simp only [List.length_nil, Nat.add_zero] at h2
    rw [h2]
  | cons p rest ih =>
    intro idx env0 h1 h2
    simp only [runStmts] at h1 ⊢
    cases hex : execSimple w idx env0 p with
    | error e2 => rw [hex] at h1; exact absurd h1 (by simp)
    | ok env1 =>
      rw [hex] at h1
      simp only [List.cons_append, runStmts, hex]
      apply ih (idx + 1) env1 h1
      have harith : idx + 1 + rest.length = idx + (p :: rest).length := by
        simp only [List.length_cons]; omega
      rw [harith]
      exact h2

/-! ### The claims -/

/-- Claim C1: the notebook's script is a single linear straight-line sequence
with no branches or loops (every statement is a simple assignment), and the
stages it performs, in order of first occurrence, are exactly load → split →
embed → index → wrap-as-retriever → query; the full per-statement stage
sequence is also recorded. -/
theorem claim_C1_linear_stage_order :
    notebookStmts.all Stmt.isSimple = true
    ∧ notebookScript.map SimpleStmt.stage =
      [.loadStage, .loadStage, .splitStage, .splitStage, .embedStage, .indexStage,
       .wrapRetrieverStage, .queryStage, .wrapRetrieverStage, .queryStage,
       .wrapRetrieverStage, .queryStage, .wrapRetrieverStage, .queryStage]
    ∧ stageOrder notebookScript =
      [.loadStage, .splitStage, .embedStage, .indexStage, .wrapRetrieverStage,
       .queryStage] :=
  ⟨rfl, rfl, rfl⟩

/-- Claim C2: for every dictionary passed as `search_kwargs` to
`as_retriever`, invoking the resulting retriever passes those parameters
unchanged to the underlying vector store's search method; in particular the
notebook's `score_threshold` value 0.5 and top-k value `k = 1` reach the
search call unmodified. -/
theorem claim_C2_search_kwargs_passthrough :
    ∀ (vs : VectorStore) (st : SearchType) (kw : SearchKwargs) (q : String),
      ((vs.as_retriever ⟨some st, some kw⟩).searchCall q).kwargs = kw
      ∧ (vs.as_retriever ⟨some st, some kw⟩).invoke q =
          vs.execSearch ⟨st.method, q, kw⟩
      ∧ ((vs.as_retriever ⟨some .similarity_score_threshold,
            some ⟨none, some (mkRat 1 2)⟩⟩).searchCall q).kwargs.score_threshold =
          some (mkRat 1 2)
      ∧ ((vs.as_retriever ⟨none, some ⟨some 1, none⟩⟩).searchCall q).kwargs.k =
          some 1 :=
  fun _ _ _ _ => ⟨rfl, rfl, rfl, rfl⟩

/-- Claim C3: the `search_type` argument of `as_retriever` selects which
search method of the underlying vector store `invoke` calls: the default
selects similarity search and `search_type = "mmr"` selects the store's
maximum-marginal-relevance search, for every query string. -/
theorem claim_C3_search_type_dispatch :
    ∀ (vs : VectorStore) (ko : Option SearchKwargs) (kw : SearchKwargs) (q : String),
      ((vs.as_retriever ⟨none, ko⟩).searchCall q).method = .similarity_search
      ∧ (vs.as_retriever ⟨none, some kw⟩).invoke q = vs.similarity_search q kw
      ∧ ((vs.as_retriever ⟨some .mmr, ko⟩).searchCall q).method =
          .max_marginal_relevance_search
      ∧ (vs.as_retriever ⟨some .mmr, some kw⟩).invoke q =
          vs.max_marginal_relevance_search q kw
      ∧ ∀ (st : SearchType),
          ((vs.as_retriever ⟨some st, some kw⟩).searchCall q).method = st.method :=
  fun _ _ _ _ => ⟨rfl, rfl, rfl, rfl, fun _ => rfl⟩

/-- Claim C4: top-k limiting holds: every retriever returns at most its
configured (or default) `k` documents, and the retriever built with
`search_kwargs = ⟨some 1, none⟩` (the notebook's `{"k": 1}`) returns exactly
one document on every query over a non-empty store, matching the notebook's
recorded `len(docs) = 1`. -/
theorem claim_C4_topk_limit :
    (∀ (r : VectorStoreRetriever) (q : String),
      (r.invoke q).length ≤ r.search_kwargs.getK)
    ∧ ∀ (vs : VectorStore) (q : String), vs.texts ≠ [] →
        ((vs.as_retriever ⟨none, some ⟨some 1, none⟩⟩).invoke q).length = 1 :=
  ⟨invoke_length_le, invoke_k1_length⟩

/-- Evaluation of claim C4 on the concrete sample store: the `k = 1`
retriever returns exactly one document. -/
theorem claim_C4_topk_limit_witness :
    ((sampleStore.as_retriever ⟨none, some ⟨some 1, none⟩⟩).invoke theQuery).length
      = 1 :=
  claim_C4_topk_limit.2 sampleStore theQuery (by decide)

/-- Claim C5: threshold filtering holds: every document returned by `invoke`
on a retriever with `search_type = "similarity_score_threshold"` and a
`score_threshold` in its `search_kwargs` scores strictly above the threshold;
in particular this applies to the notebook's threshold 0.5. -/
theorem claim_C5_score_threshold_filter :
    ∀ (vs : VectorStore) (q : String) (ko : Option ℕ) (t : ℚ) (d : Document),
      d ∈ (vs.as_retriever
          ⟨some .similarity_score_threshold, some ⟨ko, some t⟩⟩).invoke q →
      t < vs.relevance q d :=
  mem_threshold_invoke

/-- Evaluation of claim C5 on the concrete sample store with threshold 1/2:
the returned document `docA` scores above the threshold. -/
theorem claim_C5_score_threshold_filter_witness :
    mkRat 1 2 < sampleStore.relevance theQuery docA :=
  claim_C5_score_threshold_filter sampleStore theQuery none (mkRat 1 2) docA
    (by decide)

/-- Claim C6: the script defines no error handling of its own: every
statement is a plain assignment (no try/except or error branch), and whenever
the library call of some statement raises an exception after the preceding
statements succeeded, the whole run stops with exactly that exception, so no
later step runs. -/
theorem claim_C6_exception_propagation :
    notebookStmts.all Stmt.isSimple = true
    ∧ ∀ (w : World) (pre : List SimpleStmt) (s : SimpleStmt)
        (post : List SimpleStmt) (e : PyErr) (env : Env),
        notebookScript = pre ++ s :: post →
        runStmts w pre 0 [] = .ok env →
        execSimple w pre.length env s = .error e →
        runStmts w notebookScript 0 [] = .error e := by
  refine ⟨rfl, ?_⟩
  intro w pre s post e env hs h1 h2
  rw [hs]
  apply runStmts_error_of_prefix w s post e env pre 0 [] h1
  simpa using h2

/-- Evaluation of claim C6 in a world whose first library call raises
exception code 7: the whole notebook run stops with that exception. -/
theorem claim_C6_exception_propagation_witness :
    runStmts failWorld notebookScript 0 [] = .error (.external 7) :=
  claim_C6_exception_propagation.2 failWorld []
    (.assign "loader" (.textLoader "state_of_the_union.txt") [])
    (notebookScript.drop 1) (.external 7) [] rfl rfl rfl

/-- Claim C7: in every world in which no library call raises, running the
embedded script equals the plain composition of the external library calls
(load → split → embed → index → wrap-as-retriever → query, with the three
later re-wrap/re-query pairs): the final environment is exactly
`composedFinalEnv`, with no computation of this repository inserted between
the calls. -/
theorem claim_C7_script_is_composition :
    ∀ (w : World), w.raises = (fun _ => none) →
      runStmts w notebookScript 0 [] = .ok (composedFinalEnv w) := by
  intro w h
  obtain ⟨fd, ch, em, rs⟩ := w
  have h' : rs = fun _ => none := h
  subst h'
  rfl

/-- Evaluation of claim C7 on the concrete sample world. -/
theorem claim_C7_script_is_composition_witness :
    runStmts sampleWorld notebookScript 0 [] = .ok (composedFinalEnv sampleWorld) :=
  claim_C7_script_is_composition sampleWorld rfl

/-- Claim C8: the retriever exposes a uniform interface: the notebook queries
every configured retriever with the identical single call
`invoke(the query)` binding `docs`; `invoke` is one dispatch function for all
search types; and the similarity and score-threshold results are ranked by
non-increasing relevance. -/
theorem claim_C8_uniform_invoke_interface :
    invokeCalls notebookScript =
      [("docs", ["retriever"], theQuery), ("docs", ["retriever"], theQuery),
       ("docs", ["retriever"], theQuery), ("docs", ["retriever"], theQuery)]
    ∧ (∀ (r : VectorStoreRetriever) (q : String),
        r.invoke q = r.vectorstore.execSearch (r.searchCall q))
    ∧ (∀ (vs : VectorStore) (kw : SearchKwargs) (q : String),
        rankedDesc (vs.relevance q) (vs.similarity_search q kw))
    ∧ ∀ (vs : VectorStore) (kw : SearchKwargs) (q : String),
        rankedDesc (vs.relevance q)
          ((vs.similarity_search_with_relevance_scores q kw).map Prod.fst) := by
  refine ⟨rfl, fun _ _ => rfl, ?_, ?_⟩
  · intro vs kw q
    exact List.Pairwise.sublist (List.take_sublist _ _) (ranked_sorted vs q)
  · intro vs kw q
    have hbase : ((vs.ranked q).map (fun d => (d, vs.relevance q d))).Pairwise
        (fun p r => vs.relevance q r.1 ≤ vs.relevance q p.1) :=
      List.pairwise_map.mpr (ranked_sorted vs q)
    have hsw : (vs.similarity_search_with_relevance_scores q kw).Pairwise
        (fun p r => vs.relevance q r.1 ≤ vs.relevance q p.1) :=
      List.Pairwise.sublist (sswrs_sublist vs q kw) hbase
    exact List.pairwise_map.mpr hsw

/-- Claim C9: when `as_retriever` is called with no arguments, the resulting
retriever's search type defaults to similarity search, so `invoke` calls the
vector store's similarity search method for every query. -/
theorem claim_C9_default_similarity :
    ∀ (vs : VectorStore) (q : String),
      (vs.as_retriever ⟨none, none⟩).search_type = .similarity
      ∧ ((vs.as_retriever ⟨none, none⟩).searchCall q).method = .similarity_search
      ∧ (vs.as_retriever ⟨none, none⟩).invoke q =
          vs.similarity_search q SearchKwargs.empty :=
  fun _ _ => ⟨rfl, rfl, rfl⟩

/-- Claim C10: `as_retriever` leaves the underlying vector store unchanged:
the wrapped store of any retriever is the store it was built from, and in
every non-raising run of the notebook each of the four retrievers (after
statements 7, 9, 11 and 13) wraps the same store built by
`FAISS.from_documents`, which the variable `vectorstore` still holds at the
end. -/
theorem claim_C10_as_retriever_frame :
    (∀ (vs : VectorStore) (kwargs : AsRetrieverKwargs),
      (vs.as_retriever kwargs).vectorstore = vs)
    ∧ ∀ (w : World), w.raises = (fun _ => none) →
        retrieverStoreAt w 7 = some (pipelineStore w)
        ∧ retrieverStoreAt w 9 = some (pipelineStore w)
        ∧ retrieverStoreAt w 11 = some (pipelineStore w)
        ∧ retrieverStoreAt w 13 = some (pipelineStore w)
        ∧ storeVarAt w 14 = some (pipelineStore w) := by
  refine ⟨fun _ _ => rfl, ?_⟩
  intro w h
  obtain ⟨fd, ch, em, rs⟩ := w
  have h' : rs = fun _ => none := h
  subst h'
  exact ⟨rfl, rfl, rfl, rfl, rfl⟩

/-- Evaluation of claim C10 on the concrete sample world: the first retriever
and the final `vectorstore` variable hold the pipeline's store. -/
theorem claim_C10_as_retriever_frame_witness :
    retrieverStoreAt sampleWorld 7 = some (pipelineStore sampleWorld)
    ∧ storeVarAt sampleWorld 14 = some (pipelineStore sampleWorld) :=
  ⟨(claim_C10_as_retriever_frame.2 sampleWorld rfl).1,
   (claim_C10_as_retriever_frame.2 sampleWorld rfl).2.2.2.2⟩

end VectorstoreRetrieverNotebook
